import Mathlib

/-!
Shallow embedding of the client-side interactivity layer of the portfolio
website (source: `src/js/main.js`), together with theorems settling the
frozen claims about it.

Conventions of the embedding:
* JavaScript strings are modelled by Lean `String` (the values involved are
  ASCII, so UTF-16 versus codepoint issues do not arise).
* `localStorage` is modelled as an `Option String` field (`none` = key
  absent); the DOM attribute `data-theme` as an `Option String` field.
* JavaScript truthiness of a string (used via `||` and `!`) is: `null`
  (here `none`) and the empty string are falsy, everything else truthy.
* Timer scheduling is modelled by explicit ticks / event lists; the DOM
  side effects irrelevant to the claims (icons, ARIA attributes, CSS
  transition juggling, announcements) are not part of the state.
-/

namespace Portfolio

/-! ### ThemeManager (src/js/main.js lines 201-294)

State of the theme subsystem: the persisted `localStorage` key
`portfolio-theme`, the document attribute `data-theme`, and the in-memory
field `this.currentTheme`. -/

structure TMState where
  storage : Option String
  attr : Option String
  currentTheme : String
deriving DecidableEq, Repr

/-- JavaScript falsiness of the value returned by
`localStorage.getItem('portfolio-theme')`: `null` (key absent) and the
empty string are falsy. This is the test `!this.getStoredTheme()` at
line 289 and the `||` fallback at line 205. -/
def storedFalsy : Option String → Bool
  | none => true
  | some v => v = ""

/-- ThemeManager.getSystemTheme (lines 219-221):
`matchMedia('(prefers-color-scheme: dark)').matches ? 'dark' : 'light'`. -/
def getSystemTheme (osDark : Bool) : String :=
  if osDark then "dark" else "light"

/-- ThemeManager.setTheme (lines 223-231): sets `this.currentTheme`,
the document attribute `data-theme`, and persists under
`portfolio-theme`. (`updateIcon` and `announceThemeChange` touch no
state modelled here.) -/
def setTheme (theme : String) (_s : TMState) : TMState :=
  { storage := some theme, attr := some theme, currentTheme := theme }

/-- ThemeManager.toggleTheme (lines 233-242):
`newTheme = currentTheme === 'dark' ? 'light' : 'dark'; setTheme(newTheme)`. -/
def toggleTheme (s : TMState) : TMState :=
  setTheme (if s.currentTheme = "dark" then "light" else "dark") s

/-- The OS color-scheme change listener (lines 288-292):
`if (!this.getStoredTheme()) { this.setTheme(e.matches ? 'dark' : 'light') }`. -/
def osChangeHandler (osDark : Bool) (s : TMState) : TMState :=
  if storedFalsy s.storage then setTheme (getSystemTheme osDark) s else s

/-- ThemeManager constructor plus init (lines 202-213): reads
`this.currentTheme = this.getStoredTheme() || this.getSystemTheme()`
(lines 205) from a given stored value and OS signal, then applies it via
`setTheme` (line 210). `osDark` is the OS color-scheme signal. -/
def constructTM (stored : Option String) (osDark : Bool) : TMState :=
  let current := if storedFalsy stored then getSystemTheme osDark else stored.getD ""
  setTheme current { storage := stored, attr := none, currentTheme := "" }

/-! ### TypingAnimation (src/js/main.js lines 451-509)

State of the typing effect: `currentTextIndex`, `currentCharIndex`,
`isDeleting`, `isPaused`. A tick is one invocation of `type()`; it
returns the new state, the string written to `element.textContent`, and
the delay passed to the rescheduling `setTimeout`. Timing constants from
CONFIG.TIMING: typingSpeed 100, typingDeleteSpeed 50, typingPause 2000. -/

structure TypingState where
  currentTextIndex : Nat
  currentCharIndex : Nat
  isDeleting : Bool
  isPaused : Bool
deriving DecidableEq, Repr

/-- TypingAnimation.type (lines 480-508), one tick: decrement or
increment the character index, write `currentText.substring(0,
currentCharIndex)` to the element, pick the delay, and handle phrase
completion (enter pause + delete mode) or deletion completion (advance
cyclically to the next phrase). Note that `isPaused` is never read.
(`currentCharIndex` is a Nat: truncated subtraction agrees with the
source because a tick that is deleting always starts from a positive
index — the deletion-complete branch flips `isDeleting` off exactly when
the index reaches 0.) -/
def typeTick (texts : List String) (s : TypingState) : TypingState × String × Nat :=
  let currentText := texts.getD s.currentTextIndex ""
  let charIndex := if s.isDeleting then s.currentCharIndex - 1 else s.currentCharIndex + 1
  let display := String.mk (currentText.data.take charIndex)
  let speed := if s.isDeleting then 50 else 100
  if !s.isDeleting && charIndex = currentText.length then
    ({ s with currentCharIndex := charIndex, isPaused := true, isDeleting := true },
      display, 2000)
  else if s.isDeleting && charIndex = 0 then
    ({ currentTextIndex := (s.currentTextIndex + 1) % texts.length,
       currentCharIndex := charIndex, isDeleting := false, isPaused := s.isPaused },
      display, speed)
  else
    ({ s with currentCharIndex := charIndex }, display, speed)

/-- Initial state set by the constructor (lines 461-464). -/
def typingInit : TypingState := ⟨0, 0, false, false⟩

/-- The state after `n` ticks of the typing effect. -/
def typingStateAt (texts : List String) : Nat → TypingState
  | 0 => typingInit
  | n + 1 => (typeTick texts (typingStateAt texts n)).1

/-- The text displayed by tick `n` (0-based: tick 0 is the first
invocation of `type()`). -/
def typingDisplayAt (texts : List String) (n : Nat) : String :=
  (typeTick texts (typingStateAt texts n)).2.1

/-- The delay scheduled by tick `n`. -/
def typingDelayAt (texts : List String) (n : Nat) : Nat :=
  (typeTick texts (typingStateAt texts n)).2.2

/-- TypingAnimation.start (lines 471-478): with reduced motion the
element is set once to `texts[0]` and no tick is ever scheduled, so the
displayed text at every instant is `texts[0]`; otherwise the display is
the one produced by the ticks. -/
def typingDisplayed (reducedMotion : Bool) (texts : List String) (n : Nat) : String :=
  if reducedMotion then texts.headD "" else typingDisplayAt texts n

/-- The phrase list of claim C6. -/
def demoTexts : List String := ["Go", "JS"]

end Portfolio

namespace Portfolio

/-! ### StatsCounter.animateCounter (src/js/main.js lines 610-629)

`animateCounter` reads `target = parseInt(element.getAttribute('data-count'))`,
sets `increment = Math.ceil(target / 100)`, starts `current = 0` and runs
`updateCounter`: `current += increment`; if `current >= target` it writes
exactly `target` and stops, else writes `current` and re-schedules itself
via `requestAnimationFrame`. We model the run as the list of values
written to `element.textContent`; `fuel` bounds the number of frames, and
a `none` result means the run did not terminate within `fuel` frames. -/

/-- Increment size `Math.ceil(target / 100)` on a nonnegative integer
target (line 612). -/
def counterIncrement (target : Nat) : Nat := (target + 99) / 100

/-- The `updateCounter` closure (lines 615-626), run for at most `fuel`
frames from counter value `current`: returns the list of displayed
values, ending in the clamped `target`, or `none` on fuel exhaustion. -/
def updateCounterRun (target increment : Nat) : Nat → Nat → Option (List Nat)
  | 0, _ => none
  | fuel + 1, current =>
    let c := current + increment
    if target ≤ c then some [target]
    else
      match updateCounterRun target increment fuel c with
      | some l => some (c :: l)
      | none => none

/-- StatsCounter.animateCounter for target `target`: the full run,
allotted the 100 frames that the claim says always suffice. -/
def animateCounter (target : Nat) : Option (List Nat) :=
  updateCounterRun target (counterIncrement target) 100 0

/-! ### NavigationManager mobile menu (src/js/main.js lines 296-448)

The mobile-menu state is the boolean `this.isMenuOpen`; the CSS classes,
ARIA attributes, body-scroll suppression and focus moves of
`toggleMobileMenu` are functions of the resulting flag and are not part
of the modelled state. Each handler below is the body of the
corresponding event listener in `bindEvents` (the debounce/throttle
wrappers affect timing only). -/

/-- Utils.getViewportSize (lines 127-133) on `window.innerWidth`. -/
def getViewportSize (width : Nat) : String :=
  if width ≤ 480 then "mobile"
  else if width ≤ 768 then "tablet"
  else if width ≤ 1024 then "desktop"
  else "large"

/-- NavigationManager.toggleMobileMenu (lines 367-386), restricted to
the `isMenuOpen` flag. -/
def toggleMobileMenu (isMenuOpen : Bool) : Bool := !isMenuOpen

/-- NavigationManager.closeMobileMenu (lines 388-392):
`if (this.isMenuOpen) this.toggleMobileMenu()`. -/
def closeMobileMenu (isMenuOpen : Bool) : Bool :=
  if isMenuOpen then toggleMobileMenu isMenuOpen else isMenuOpen

/-- The document keydown listener (lines 328-332):
`if (e.key === 'Escape' && this.isMenuOpen) this.closeMobileMenu()`. -/
def menuKeydownHandler (key : String) (isMenuOpen : Bool) : Bool :=
  if key = "Escape" ∧ isMenuOpen = true then closeMobileMenu isMenuOpen else isMenuOpen

/-- The document click listener (lines 335-339): close when open and the
click target is contained in neither the menu nor the toggle control. -/
def menuDocumentClickHandler (targetInMenu targetInToggle : Bool) (isMenuOpen : Bool) : Bool :=
  if isMenuOpen = true ∧ targetInMenu = false ∧ targetInToggle = false then
    closeMobileMenu isMenuOpen
  else isMenuOpen

/-- The debounced resize listener (lines 358-364):
`if (Utils.getViewportSize() !== 'mobile' && this.isMenuOpen) this.closeMobileMenu()`. -/
def menuResizeHandler (width : Nat) (isMenuOpen : Bool) : Bool :=
  if getViewportSize width ≠ "mobile" ∧ isMenuOpen = true then
    closeMobileMenu isMenuOpen
  else isMenuOpen

/-! ### ContactForm validation (src/js/main.js lines 699-807) -/

/-- Membership in the JavaScript regex class `\s` (also the class
`String.prototype.trim` strips), for the character ranges relevant
here: space, tab, line feed, vertical tab, form feed, carriage return,
and no-break space. -/
def jsWhitespace (c : Char) : Bool :=
  c = ' ' || c = '\t' || c = '\n' || c = '\x0b' || c = '\x0c' || c = '\r' ||
    c = '\u00A0'

/-- JavaScript `String.prototype.trim`: strip leading and trailing
whitespace. -/
def jsTrim (s : String) : String :=
  String.mk (((s.data.dropWhile jsWhitespace).reverse.dropWhile jsWhitespace).reverse)

/-- A character matching the class `[^\s@]` of the email regex. -/
def emailAtomChar (c : Char) : Bool := !(jsWhitespace c || c = '@')

/-- The email validator (line 726): the test of
`/^[^\s@]+@[^\s@]+\.[^\s@]+$/`. Because the class excludes `@`, a
matching string decomposes exactly at its unique `@`: a non-empty local
part of class characters, then `@`, then a tail of class characters
containing a dot that is neither its first nor its last character (the
class includes the dot itself, so the two class runs flanking the
pattern's dot absorb any remaining dots, making an interior dot
sufficient as well as necessary). -/
def emailValidator (s : String) : Bool :=
  let cs := s.data
  let localPart := cs.takeWhile (fun c => c != '@')
  match cs.dropWhile (fun c => c != '@') with
  | [] => false
  | _ :: r =>
    !localPart.isEmpty && localPart.all emailAtomChar && r.all emailAtomChar &&
      ((r.drop 1).dropLast.contains '.')

/-- A character matching the class `[\d\s\-\+\(\)]` of the phone regex. -/
def phoneClassChar (c : Char) : Bool :=
  c.isDigit || jsWhitespace c || c = '-' || c = '+' || c = '(' || c = ')'

/-- The phone validator (line 727):
`(value) => !value || /^[\d\s\-\+\(\)]+$/.test(value)`. -/
def phoneValidator (s : String) : Bool :=
  s.isEmpty || (!s.data.isEmpty && s.data.all phoneClassChar)

/-- A form field as `validateField` sees it: its current value, its
`required` attribute, its `type` (or lower-cased tag name), and its
`name`. -/
structure FormField where
  value : String
  required : Bool
  type : String
  name : String
deriving DecidableEq, Repr

/-- ContactForm.validateField (lines 734-766): the validity verdict and
the inline error message written to the field's `.form-error` element. -/
def validateField (field : FormField) : Bool × String :=
  let value := jsTrim field.value
  if field.required = true ∧ value = "" then
    (false, "This field is required")
  else if value ≠ "" then
    if field.type = "email" ∧ emailValidator value = false then
      (false, "Please enter a valid email address")
    else if field.name = "phone" ∧ phoneValidator value = false then
      (false, "Please enter a valid phone number")
    else (true, "")
  else (true, "")

/-- The validation phase of ContactForm.handleSubmit (lines 775-787): it
re-validates every `required` field of the form and aborts the submit
(showing the aggregate error message) if any fails. -/
def handleSubmitBlocked (formFields : List FormField) : Bool :=
  (formFields.filter (fun f => f.required)).any (fun f => !(validateField f).1)

/-! ### LazyLoader (src/js/main.js lines 937-993)

Per-image state: the `data-src` pending-source marker, the `src`
attribute (none = placeholder), and the `loaded`/`error` classes. -/

structure LazyImage where
  dataSrc : Option String
  src : Option String
  loadedClass : Bool
  errorClass : Bool
deriving DecidableEq, Repr

/-- Outcome of the preloading `Image()` for one attempt. -/
inductive LoadOutcome where
  | success
  | failure
deriving DecidableEq, Repr

/-- LazyLoader.loadImage (lines 972-988): preload the `data-src` value;
`onload` assigns it to `src`, removes the marker and adds the `loaded`
class; `onerror` adds only the `error` class — `src` is never assigned
and no retry is scheduled. -/
def loadImage (outcome : LoadOutcome) (img : LazyImage) : LazyImage :=
  match img.dataSrc with
  | none => img
  | some s =>
    match outcome with
    | .success => { img with src := some s, dataSrc := none, loadedClass := true }
    | .failure => { img with errorClass := true }

/-- One intersection-observer delivery for one image (lines 960-967):
load only when the entry intersects the proximity region (threshold 0.1,
rootMargin 50px); then unobserve. -/
def lazyObserverEvent (isIntersecting : Bool) (outcome : LoadOutcome) (img : LazyImage) :
    LazyImage :=
  if isIntersecting then loadImage outcome img else img

/-- The per-image observer lifecycle: a stream of intersection events;
the first intersecting one triggers the (single) load attempt and
unobserves the image, so no later event is delivered. -/
def lazyObserverRun : List (Bool × LoadOutcome) → LazyImage → LazyImage
  | [], img => img
  | (inter, outcome) :: rest, img =>
    if inter then loadImage outcome img else lazyObserverRun rest img

/-- Number of load attempts the observer lifecycle performs on an image. -/
def lazyObserverAttempts : List (Bool × LoadOutcome) → Nat
  | [] => 0
  | (inter, _) :: rest => if inter then 1 else lazyObserverAttempts rest

/-- LazyLoader.fallbackLoading (lines 990-992):
`this.images.forEach(img => this.loadImage(img))` — every image is
loaded immediately. The `nearViewport` argument records whether the
image is within the configured proximity of the viewport; the source
consults no such information, so the argument is ignored. -/
def fallbackLoading (nearViewport : Bool) (outcome : LoadOutcome) (img : LazyImage) :
    LazyImage :=
  loadImage outcome img

/-! ### Animate-once guards of the reveal family (src/js/main.js lines 511-697)

Elements are identified by naturals. A `log` records, in order, each
application of the animation effect (`animateElement` /
`animateCounter` / `animateSkillBar`) to an element, so "applied at most
once" is a bound on a log count. -/

/-- One throttled scroll tick of ScrollAnimations.fallbackAnimation
(lines 564-575): `animateElement` is called on every element currently
in viewport; no visited set is consulted. -/
def scrollAnimFallbackTick (inViewport : Nat → Bool) (elements : List Nat)
    (log : List Nat) : List Nat :=
  elements.foldl (fun log el => if inViewport el then log ++ [el] else log) log

/-- A run of scroll ticks of the ScrollAnimations fallback from the
empty log; each tick comes with its own viewport membership. -/
def scrollAnimFallbackRun (elements : List Nat) (ticks : List (Nat → Bool)) : List Nat :=
  ticks.foldl (fun log vp => scrollAnimFallbackTick vp elements log) []

/-- State of a set-guarded animator: the visited set (`animatedStats`,
resp. `animatedBars`) and the log of effect applications. -/
structure OnceState where
  visited : List Nat
  log : List Nat
deriving DecidableEq, Repr

/-- Invariant tying the log of a set-guarded animator to its visited
set: every element is logged at most once, and an element outside the
set is not logged at all. -/
def onceInv (s : OnceState) : Prop :=
  ∀ el : Nat, s.log.count el ≤ 1 ∧ (el ∉ s.visited → s.log.count el = 0)

/-- One observer-entry delivery of StatsCounter.setupIntersectionObserver
(lines 596-608): animate only if the entry intersects and the target is
not in `animatedStats`; then add it to the set and unobserve. -/
def statsObserverStep (s : OnceState) (entry : Nat × Bool) : OnceState :=
  if entry.2 = true ∧ entry.1 ∉ s.visited then
    { visited := entry.1 :: s.visited, log := s.log ++ [entry.1] }
  else s

/-- A run of observer-entry deliveries for StatsCounter. -/
def statsObserverRun (entries : List (Nat × Bool)) : OnceState :=
  entries.foldl statsObserverStep ⟨[], []⟩

/-- One throttled scroll tick of StatsCounter.fallbackCounter (lines
631-642): every element in viewport and not yet in `animatedStats` is
animated and added to the set. -/
def statsFallbackTick (inViewport : Nat → Bool) (elements : List Nat)
    (s : OnceState) : OnceState :=
  elements.foldl (fun s el =>
    if inViewport el = true ∧ el ∉ s.visited then
      { visited := el :: s.visited, log := s.log ++ [el] }
    else s) s

/-- A run of scroll ticks of the StatsCounter fallback. -/
def statsFallbackRun (elements : List Nat) (ticks : List (Nat → Bool)) : OnceState :=
  ticks.foldl (fun s vp => statsFallbackTick vp elements s) ⟨[], []⟩

/-- SkillBars.setupIntersectionObserver (lines 663-675) guards with
`animatedBars` exactly as StatsCounter guards with `animatedStats`
(only the applied effect and the 0.3 threshold differ, neither of which
affects the once property), so its entry processing is the same
function. -/
def skillBarsObserverRun (entries : List (Nat × Bool)) : OnceState :=
  statsObserverRun entries

/-- SkillBars.fallbackAnimation (lines 685-696) is word-for-word the
StatsCounter fallback with `animatedBars` for the set. -/
def skillBarsFallbackRun (elements : List Nat) (ticks : List (Nat → Bool)) : OnceState :=
  statsFallbackRun elements ticks

end Portfolio

namespace Portfolio

/-- Core termination lemma for the counter loop: if the counter can reach
the target within the allotted frames, the run succeeds, its displayed
values end in exactly `target`, and it uses at most `fuel + 1` frames. -/
theorem updateCounterRun_ok (target inc : Nat) :
    ∀ (fuel current : Nat), target ≤ current + inc * fuel + inc →
      ∃ l : List Nat, updateCounterRun target inc (fuel + 1) current = some (l ++ [target]) ∧
        l.length + 1 ≤ fuel + 1 := by
  intro fuel
  induction fuel with
  | zero =>
    intro current h
    refine ⟨[], ?_, le_refl 1⟩
    have hc : target ≤ current + inc := by omega
    simp [updateCounterRun, hc]
  | succ fuel ih =>
    intro current h
    have hstep : updateCounterRun target inc (fuel + 1 + 1) current =
        (if target ≤ current + inc then some [target]
         else match updateCounterRun target inc (fuel + 1) (current + inc) with
              | some l => some ((current + inc) :: l)
              | none => none) := rfl
    by_cases hc : target ≤ current + inc
    · refine ⟨[], ?_, by simp⟩
      rw [hstep, if_pos hc]
      rfl
    · rw [Nat.mul_succ] at h
      obtain ⟨l, hl, hlen⟩ := ih (current + inc) (by omega)
      refine ⟨(current + inc) :: l, ?_, by simp only [List.length_cons]; omega⟩
      rw [hstep, if_neg hc, hl]
      rfl

/-- Generic preservation of an invariant along a fold. -/
theorem foldl_preserves {α : Type} {σ : Type} (I : σ → Prop) (f : σ → α → σ)
    (step : ∀ s a, I s → I (f s a)) :
    ∀ (l : List α) (s : σ), I s → I (l.foldl f s) := by
  intro l
  induction l with
  | nil => intro s h; exact h
  | cons a l ih => intro s h; exact ih (f s a) (step s a h)

theorem onceInv_init : onceInv ⟨[], []⟩ := by
  intro el
  simp

/-- Recording an element not yet in the visited set preserves the
once-guard invariant. -/
theorem onceInv_extend (s : OnceState) (e : Nat) (he : e ∉ s.visited) (h : onceInv s) :
    onceInv ⟨e :: s.visited, s.log ++ [e]⟩ := by
  intro el
  have h1 := h el
  constructor
  · by_cases heq : el = e
    · subst heq
      simp [List.count_append, List.count_cons, h1.2 he]
    · simp [List.count_append, List.count_cons, heq, h1.1]
  · intro hel
    simp only [List.mem_cons, not_or] at hel
    simp [List.count_append, List.count_cons, hel.1, h1.2 hel.2]

theorem statsObserverStep_preserves (s : OnceState) (entry : Nat × Bool) (h : onceInv s) :
    onceInv (statsObserverStep s entry) := by
  unfold statsObserverStep
  by_cases hcond : entry.2 = true ∧ entry.1 ∉ s.visited
  · rw [if_pos hcond]
    exact onceInv_extend s entry.1 hcond.2 h
  · rw [if_neg hcond]
    exact h

theorem statsFallbackTick_preserves (vp : Nat → Bool) (elements : List Nat) (s : OnceState)
    (h : onceInv s) : onceInv (statsFallbackTick vp elements s) := by
  unfold statsFallbackTick
  refine foldl_preserves onceInv _ ?_ elements s h
  intro s el hs
  by_cases hcond : vp el = true ∧ el ∉ s.visited
  · rw [if_pos hcond]
    exact onceInv_extend s el hcond.2 hs
  · rw [if_neg hcond]
    exact hs

theorem statsObserverRun_inv (entries : List (Nat × Bool)) : onceInv (statsObserverRun entries) :=
  foldl_preserves onceInv statsObserverStep statsObserverStep_preserves entries ⟨[], []⟩
    onceInv_init

theorem statsFallbackRun_inv (elements : List Nat) (ticks : List (Nat → Bool)) :
    onceInv (statsFallbackRun elements ticks) :=
  foldl_preserves onceInv _ (fun s vp => statsFallbackTick_preserves vp elements s) ticks
    ⟨[], []⟩ onceInv_init

/-- The ScrollAnimations fallback on a single always-visible element
logs the element once per tick. -/
theorem scrollAnimFallbackRun_replicate (el : Nat) :
    ∀ (n : Nat) (log : List Nat),
      (List.replicate n (fun _ : Nat => true)).foldl
        (fun log vp => scrollAnimFallbackTick vp [el] log) log = log ++ List.replicate n el := by
  intro n
  induction n with
  | zero => intro log; simp
  | succ n ih =>
    intro log
    rw [List.replicate_succ, List.foldl_cons, ih]
    simp [scrollAnimFallbackTick, List.replicate_succ]

theorem typingStateAt_succ (texts : List String) (n : Nat) :
    typingStateAt texts (n + 1) = (typeTick texts (typingStateAt texts n)).1 := rfl

/-- On the demo phrase list the state is eventually periodic with period
8: from tick 2 on, ticks 10 steps apart see identical states. (From tick
0 the period does not literally hold because tick 1 sets `isPaused`,
which is never cleared; the flag does not influence any output.) -/
theorem typing_state_period :
    ∀ n, typingStateAt demoTexts (n + 10) = typingStateAt demoTexts (n + 2) := by
  intro n
  induction n with
  | zero => decide
  | succ n ih =>
    rw [show n + 1 + 10 = (n + 10) + 1 from rfl, typingStateAt_succ, ih]
    rfl

/-- The tick outputs (displayed text and scheduled delay) on the demo
phrase list are periodic with period 8 from the very start. -/
theorem typing_out_period :
    ∀ n, (typeTick demoTexts (typingStateAt demoTexts (n + 8))).2 =
      (typeTick demoTexts (typingStateAt demoTexts n)).2 := by
  intro n
  match n with
  | 0 => decide
  | 1 => decide
  | n + 2 =>
    rw [show n + 2 + 8 = n + 10 from rfl, typing_state_period n]

/-- Displayed-text and delay pattern of the demo run, tick by tick. -/
theorem typing_demo_pattern :
    ∀ n,
      typingDisplayAt demoTexts n = ["G", "Go", "G", "", "J", "JS", "J", ""].getD (n % 8) "" ∧
      typingDelayAt demoTexts n = [100, 2000, 50, 50, 100, 2000, 50, 50].getD (n % 8) 0 := by
  intro n
  induction n using Nat.strong_induction_on with
  | _ n ih =>
    match n with
    | 0 => exact ⟨by decide, by decide⟩
    | 1 => exact ⟨by decide, by decide⟩
    | 2 => exact ⟨by decide, by decide⟩
    | 3 => exact ⟨by decide, by decide⟩
    | 4 => exact ⟨by decide, by decide⟩
    | 5 => exact ⟨by decide, by decide⟩
    | 6 => exact ⟨by decide, by decide⟩
    | 7 => exact ⟨by decide, by decide⟩
    | n + 8 =>
      have hout := typing_out_period n
      have hd : typingDisplayAt demoTexts (n + 8) = typingDisplayAt demoTexts n :=
        congrArg Prod.fst hout
      have hdel : typingDelayAt demoTexts (n + 8) = typingDelayAt demoTexts n :=
        congrArg Prod.snd hout
      have hmod : (n + 8) % 8 = n % 8 := by omega
      rw [hd, hdel, hmod]
      exact ih n (by omega)

end Portfolio

namespace Portfolio

/-- C1: while storage is empty an OS color-scheme change applies the OS
value; once an explicit (non-empty) preference is stored, an OS change
leaves the whole state unchanged; and construction itself writes the
storage key (so after construction storage always holds the current
theme). -/
theorem themeManager_os_change_spec :
    ∀ (s : TMState) (osDark : Bool),
      (s.storage = none →
        (osChangeHandler osDark s).attr = some (getSystemTheme osDark)) ∧
      (∀ v : String, v ≠ "" → s.storage = some v →
        osChangeHandler osDark s = s) ∧
      (∀ (st : Option String) (osInit : Bool),
        (constructTM st osInit).storage = some (constructTM st osInit).currentTheme) := by
  intro s osDark
  refine ⟨?_, ?_, ?_⟩
  · intro h
    simp [osChangeHandler, storedFalsy, h, setTheme]
  · intro v hv h
    simp [osChangeHandler, storedFalsy, h, hv]
  · intro st osInit
    simp [constructTM, setTheme]

/-- Witness for `themeManager_os_change_spec` at concrete inputs: with no
stored value an OS switch to dark applies "dark"; with stored "light" the
OS switch is ignored. -/
theorem themeManager_os_change_spec_witness :
    (osChangeHandler true ⟨none, some "light", "light"⟩).attr = some "dark" ∧
    osChangeHandler true ⟨some "light", some "light", "light"⟩ =
      ⟨some "light", some "light", "light"⟩ := by
  refine ⟨?_, ?_⟩
  · have h := (themeManager_os_change_spec ⟨none, some "light", "light"⟩ true).1 rfl
    simpa [getSystemTheme] using h
  · exact (themeManager_os_change_spec ⟨some "light", some "light", "light"⟩ true).2.1
      "light" (by decide) rfl

/-- C8: immediately after `setTheme` or `toggleTheme` returns, the
persisted value and the document attribute are equal; and after a
simulated reload (re-running the constructor on the persisted storage)
the applied attribute equals the previously persisted value. The reload
clause for `setTheme` carries the hypothesis that the theme written is
non-empty, which holds for every theme value of the system
(`"light"`/`"dark"`); `toggleTheme` needs no hypothesis since it always
persists one of those two values. -/
theorem theme_persist_apply_agree :
    ∀ (s : TMState) (t : String) (osDark : Bool),
      (setTheme t s).storage = (setTheme t s).attr ∧
      (toggleTheme s).storage = (toggleTheme s).attr ∧
      (t ≠ "" →
        (constructTM (setTheme t s).storage osDark).attr = (setTheme t s).storage) ∧
      (constructTM (toggleTheme s).storage osDark).attr = (toggleTheme s).storage := by
  intro s t osDark
  refine ⟨rfl, rfl, ?_, ?_⟩
  · intro ht
    simp [setTheme, constructTM, storedFalsy, ht]
  · by_cases h : s.currentTheme = "dark" <;>
      simp [toggleTheme, setTheme, constructTM, storedFalsy, h]

/-- Witness for `theme_persist_apply_agree` at a concrete input: setting
theme "dark" and reloading re-applies "dark". -/
theorem theme_persist_apply_agree_witness :
    (constructTM (setTheme "dark" ⟨none, none, ""⟩).storage false).attr =
      (setTheme "dark" ⟨none, none, ""⟩).storage :=
  (theme_persist_apply_agree ⟨none, none, ""⟩ "dark" false).2.2.1 (by decide)

/-- C10 counterexample: the claim says any string found in storage at
construction is applied verbatim as the document theme attribute. The
empty string refutes it: JavaScript `getItem() || getSystemTheme()`
treats `""` as falsy, so construction with stored `""` (OS light) applies
"light", not `""`. -/
theorem theme_no_validation_counterexample :
    (constructTM (some "") false).attr = some "light" ∧ some "light" ≠ some ("" : String) := by
  refine ⟨rfl, by decide⟩

/-- C10 (amended): the theme manager never validates theme values against
light/dark: any non-empty string found in storage at construction is
applied verbatim as the document attribute and re-persisted (the empty
string alone is treated as absent, falling back to the OS theme);
`toggleTheme` maps every current value other than exactly "dark"
(including invalid strings) to "dark"; it is an involution on
light/dark, and on no other value. -/
theorem theme_no_validation :
    ∀ (v : String) (osDark : Bool) (s : TMState),
      (v ≠ "" →
        (constructTM (some v) osDark).attr = some v ∧
        (constructTM (some v) osDark).storage = some v) ∧
      (s.currentTheme ≠ "dark" → (toggleTheme s).currentTheme = "dark") ∧
      ((toggleTheme (toggleTheme s)).currentTheme = s.currentTheme ↔
        s.currentTheme = "light" ∨ s.currentTheme = "dark") := by
  intro v osDark s
  refine ⟨?_, ?_, ?_⟩
  · intro hv
    constructor <;> simp [constructTM, setTheme, storedFalsy, hv]
  · intro h
    simp [toggleTheme, setTheme, h]
  · by_cases h : s.currentTheme = "dark"
    · simp [toggleTheme, setTheme, h]
    · by_cases h2 : s.currentTheme = "light" <;>
        simp [toggleTheme, setTheme, h, h2]
      exact fun hlight => h2 hlight.symm

/-- Witness for `theme_no_validation`: the corrupted stored value "blue"
is applied verbatim and re-persisted, maps to "dark" under toggle, and
toggling twice does not return to "blue". -/
theorem theme_no_validation_witness :
    (constructTM (some "blue") false).attr = some "blue" ∧
    (toggleTheme ⟨some "blue", some "blue", "blue"⟩).currentTheme = "dark" ∧
    ¬((toggleTheme (toggleTheme ⟨some "blue", some "blue", "blue"⟩)).currentTheme = "blue") := by
  refine ⟨((theme_no_validation "blue" false ⟨some "blue", some "blue", "blue"⟩).1 (by decide)).1,
    (theme_no_validation "blue" false ⟨some "blue", some "blue", "blue"⟩).2.1 (by decide), ?_⟩
  intro h
  have := ((theme_no_validation "blue" false ⟨some "blue", some "blue", "blue"⟩).2.2).mp h
  simp at this

/-- C6: on the phrase list ["Go","JS"] without reduced motion, the
displayed texts of successive ticks are "G","Go" (then the 2000ms pause)
"G","" then "J","JS" (pause) "J","" repeating cyclically with period 8,
the pause occurring exactly after the full phrases; with reduced motion
the displayed text is immediately the first phrase "Go" at every instant
and never changes. -/
theorem typing_demo_cycle :
    ∀ n : Nat,
      typingDisplayed false demoTexts n =
        ["G", "Go", "G", "", "J", "JS", "J", ""].getD (n % 8) "" ∧
      typingDelayAt demoTexts n =
        [100, 2000, 50, 50, 100, 2000, 50, 50].getD (n % 8) 0 ∧
      typingDisplayed true demoTexts n = "Go" := by
  intro n
  refine ⟨?_, (typing_demo_pattern n).2, ?_⟩
  · simpa [typingDisplayed] using (typing_demo_pattern n).1
  · simp [typingDisplayed, demoTexts]

/-- C3 (code bug): the pause flag is ignored by the tick. At the
concrete paused state (phrase 0, character 0, not deleting, isPaused
true), a tick still advances the character index and mutates the
displayed text to "G"; in general the tick output (displayed text and
delay) is entirely independent of the `isPaused` flag, which `type()`
never reads. -/
theorem typing_pause_flag_ignored :
    typeTick demoTexts ⟨0, 0, false, true⟩ = (⟨0, 1, false, true⟩, "G", 100) ∧
    ∀ (texts : List String) (s : TypingState) (b : Bool),
      (typeTick texts { s with isPaused := b }).2 = (typeTick texts s).2 := by
  refine ⟨by decide, ?_⟩
  intro texts s b
  simp only [typeTick]
  split <;> first
  | rfl
  | (split <;> first
     | rfl
     | (split <;> rfl))

/-- C5: the stat counter advances from 0 in increments of
ceil(target/100) and clamps its final write to exactly the target. For
target 0 it terminates immediately displaying 0; for target 250 it
terminates displaying exactly 250 after 84 (at most 100) steps; and for
every nonnegative target the run terminates within the 100 allotted
frames with final displayed value exactly the target. -/
theorem stats_counter_termination :
    animateCounter 0 = some [0] ∧
    (animateCounter 250).isSome = true ∧
    ((animateCounter 250).getD []).length = 84 ∧
    ((animateCounter 250).getD []).getLast? = some 250 ∧
    (∀ target : Nat, ∃ l : List Nat,
      animateCounter target = some (l ++ [target]) ∧ l.length + 1 ≤ 100) := by
  refine ⟨rfl, by decide, by decide, by decide, ?_⟩
  intro target
  match target with
  | 0 => exact ⟨[], rfl, by simp⟩
  | t + 1 =>
    have harith : t + 1 ≤ 0 + counterIncrement (t + 1) * 99 + counterIncrement (t + 1) := by
      have hdm := Nat.div_add_mod (t + 1 + 99) 100
      have hlt : (t + 1 + 99) % 100 < 100 := Nat.mod_lt _ (by omega)
      unfold counterIncrement
      omega
    obtain ⟨l, hl, hlen⟩ := updateCounterRun_ok (t + 1) (counterIncrement (t + 1)) 99 0 harith
    exact ⟨l, hl, by omega⟩

/-- C9: mobile-menu state machine. From the open state, a resize event
whose width is past the mobile breakpoint leaves the menu closed, an
escape key press closes it, and a click outside both the menu and the
toggle closes it; from the closed state, none of these events (escape,
outside or any click, any resize) changes the state. -/
theorem nav_menu_state_machine :
    ∀ (width : Nat) (targetInMenu targetInToggle : Bool) (key : String),
      (480 < width → menuResizeHandler width true = false) ∧
      menuKeydownHandler "Escape" true = false ∧
      menuDocumentClickHandler false false true = false ∧
      menuKeydownHandler key false = false ∧
      menuDocumentClickHandler targetInMenu targetInToggle false = false ∧
      menuResizeHandler width false = false := by
  intro width targetInMenu targetInToggle key
  refine ⟨?_, rfl, rfl, ?_, ?_, ?_⟩
  · intro h
    have hvp : getViewportSize width ≠ "mobile" := by
      unfold getViewportSize
      rw [if_neg (by omega)]
      split
      · decide
      · split <;> decide
    simp [menuResizeHandler, hvp, closeMobileMenu, toggleMobileMenu]
  · simp [menuKeydownHandler]
  · simp [menuDocumentClickHandler]
  · simp [menuResizeHandler]

/-- Witness for `nav_menu_state_machine` at concrete inputs: resizing to
width 1000 closes an open menu. -/
theorem nav_menu_state_machine_witness : menuResizeHandler 1000 true = false :=
  (nav_menu_state_machine 1000 false false "x").1 (by omega)

/-- C7: contact-form field validation. A required field that is empty
after trimming fails validation with the inline required-field error and
blocks submission; "user@example.com" passes the email validator (and an
email field holding it validates cleanly); for a field named "phone",
"abc" fails while "+1 (555) 123-4567" passes; and in general a non-empty
phone value passes exactly when every character is a digit, a whitespace
character, or one of the symbols + - ( ). -/
theorem contact_form_validation :
    ∀ f : FormField,
      (f.required = true → jsTrim f.value = "" →
        validateField f = (false, "This field is required") ∧
        handleSubmitBlocked [f] = true) ∧
      emailValidator "user@example.com" = true ∧
      validateField ⟨"user@example.com", true, "email", "email"⟩ = (true, "") ∧
      validateField ⟨"abc", false, "text", "phone"⟩ =
        (false, "Please enter a valid phone number") ∧
      validateField ⟨"+1 (555) 123-4567", false, "text", "phone"⟩ = (true, "") ∧
      (f.type ≠ "email" → f.name = "phone" → jsTrim f.value ≠ "" →
        ((validateField f).1 = true ↔
          (jsTrim f.value).data.all phoneClassChar = true)) := by
  intro f
  refine ⟨?_, by decide, by decide, by decide, by decide, ?_⟩
  · intro hreq hval
    constructor
    · simp [validateField, hreq, hval]
    · simp [handleSubmitBlocked, hreq, validateField, hval]
  · intro htype hname hval
    have hne : ¬(jsTrim f.value).isEmpty = true := by
      simpa [String.isEmpty_iff] using hval
    have hdata : (jsTrim f.value).data ≠ [] := fun hnil => hval (String.ext hnil)
    have hreqcond : ¬(f.required = true ∧ jsTrim f.value = "") := by
      intro hc
      exact hval hc.2
    by_cases hall : (jsTrim f.value).data.all phoneClassChar = true
    · have hphone : phoneValidator (jsTrim f.value) = true := by
        simp [phoneValidator, hall, hdata]
      simp only [validateField]
      simp [hreqcond, hval, htype, hname, hphone]
      exact List.all_eq_true.mp hall
    · have hphone : phoneValidator (jsTrim f.value) = false := by
        simp [phoneValidator, hne, hdata, hall]
      simp [validateField, hreqcond, hval, htype, hname, hphone, hall]

/-- Witness for `contact_form_validation` at concrete inputs: an empty
required message field blocks submission with the inline error, and a
phone field holding "555 123" validates (all characters in the allowed
class). -/
theorem contact_form_validation_witness :
    (validateField ⟨"   ", true, "text", "message"⟩ = (false, "This field is required") ∧
      handleSubmitBlocked [⟨"   ", true, "text", "message"⟩] = true) ∧
    ((validateField ⟨"555 123", false, "tel", "phone"⟩).1 = true ↔
      (jsTrim "555 123").data.all phoneClassChar = true) :=
  ⟨(contact_form_validation ⟨"   ", true, "text", "message"⟩).1 rfl (by decide),
    (contact_form_validation ⟨"555 123", false, "tel", "phone"⟩).2.2.2.2.2
      (by decide) rfl (by decide)⟩

/-- C2 counterexample: the claim says neither loading strategy assigns
the real source before the image is within the configured proximity of
the viewport. The fallback strategy refutes it: for an image that is not
near the viewport (`nearViewport = false`), `fallbackLoading` still
performs the load, and on success the real source is assigned. -/
theorem lazy_fallback_loads_far_image :
    (fallbackLoading false LoadOutcome.success ⟨some "real.jpg", none, false, false⟩).src =
      some "real.jpg" := rfl

/-- C2 (amended): on the intersection-observer strategy no source is
assigned before an intersection within the configured proximity (a
non-intersecting delivery changes nothing); the observer performs at
most one load attempt per image (no retry); and if every delivered
attempt fails, the image keeps its placeholder state indefinitely: `src`
is never assigned and the pending-source marker survives. The fallback
strategy for platforms without IntersectionObserver, however, loads
every image immediately regardless of proximity (see the
counterexample). -/
theorem lazy_loader_proximity_and_failure :
    (∀ (outcome : LoadOutcome) (img : LazyImage),
      lazyObserverEvent false outcome img = img) ∧
    (∀ events : List (Bool × LoadOutcome), lazyObserverAttempts events ≤ 1) ∧
    (∀ (img : LazyImage) (s : String) (events : List (Bool × LoadOutcome)),
      img.dataSrc = some s → img.src = none →
      (∀ e ∈ events, e.2 = LoadOutcome.failure) →
      (lazyObserverRun events img).src = none ∧
      (lazyObserverRun events img).dataSrc = some s) := by
  refine ⟨fun outcome img => rfl, ?_, ?_⟩
  · intro events
    induction events with
    | nil => simp [lazyObserverAttempts]
    | cons e rest ih =>
      obtain ⟨inter, out⟩ := e
      by_cases hi : inter <;> simp [lazyObserverAttempts, hi, ih]
  · intro img s events hds hsrc hfail
    induction events with
    | nil => exact ⟨hsrc, hds⟩
    | cons e rest ih =>
      obtain ⟨inter, out⟩ := e
      have hout : out = LoadOutcome.failure := hfail (inter, out) (List.mem_cons_self _ _)
      by_cases hi : inter
      · subst hout
        simp [lazyObserverRun, hi, loadImage, hds, hsrc]
      · simp only [lazyObserverRun, hi, if_neg]
        exact ih (fun e he => hfail e (List.mem_cons_of_mem _ he))

/-- Witness for `lazy_loader_proximity_and_failure` at a concrete
input: an image whose single intersection delivery fails keeps `src`
unset and its data-src marker. -/
theorem lazy_loader_proximity_and_failure_witness :
    (lazyObserverRun [(true, LoadOutcome.failure)] ⟨some "a.jpg", none, false, false⟩).src =
        none ∧
      (lazyObserverRun [(true, LoadOutcome.failure)]
        ⟨some "a.jpg", none, false, false⟩).dataSrc = some "a.jpg" :=
  lazy_loader_proximity_and_failure.2.2 ⟨some "a.jpg", none, false, false⟩ "a.jpg"
    [(true, LoadOutcome.failure)] rfl rfl (by decide)

/-- C4 counterexample: the claim says every element of the reveal
family receives its effect at most once, enforced by a visited-set check
before any mutation, on both strategies. The ScrollAnimations
scroll-polling fallback refutes it: it consults no visited set, so two
scroll ticks with element 7 in the viewport call `animateElement` on it
twice. -/
theorem scroll_anim_repeats_counterexample :
    (scrollAnimFallbackRun [7] [fun _ => true, fun _ => true]).count 7 = 2 := by decide

/-- C4 (amended): StatsCounter and SkillBars check a per-element visited
set before any mutation, on both the intersection-observer strategy and
the scroll-polling fallback, so each of their elements receives its
effect at most once per page lifetime however often its visibility event
fires; ScrollAnimations performs no such check — its fallback applies
the (idempotent) effect on every tick while the element is in the
viewport, once per tick. -/
theorem animate_once_guards :
    (∀ (entries : List (Nat × Bool)) (el : Nat),
      (statsObserverRun entries).log.count el ≤ 1) ∧
    (∀ (elements : List Nat) (ticks : List (Nat → Bool)) (el : Nat),
      (statsFallbackRun elements ticks).log.count el ≤ 1) ∧
    (∀ (entries : List (Nat × Bool)) (el : Nat),
      (skillBarsObserverRun entries).log.count el ≤ 1) ∧
    (∀ (elements : List Nat) (ticks : List (Nat → Bool)) (el : Nat),
      (skillBarsFallbackRun elements ticks).log.count el ≤ 1) ∧
    (∀ (el n : Nat),
      (scrollAnimFallbackRun [el] (List.replicate n (fun _ => true))).count el = n) := by
  refine ⟨fun entries el => (statsObserverRun_inv entries el).1,
    fun elements ticks el => (statsFallbackRun_inv elements ticks el).1,
    fun entries el => (statsObserverRun_inv entries el).1,
    fun elements ticks el => (statsFallbackRun_inv elements ticks el).1, ?_⟩
  intro el n
  unfold scrollAnimFallbackRun
  rw [scrollAnimFallbackRun_replicate el n []]
  simp

end Portfolio
